import Mathlib

/-!
Shallow embedding of `lib/classes/many_to_many.py`: the classes `Customer`,
`Restaurant` and `Review`, their class-level `all` registries, their property
setters/getters and their query methods.

Modelling conventions:
* Python values passed to constructors/setters are modelled by `PyVal`
  (integers, strings, `None`, and references to `Customer`/`Restaurant`
  objects by identity).  `isinstance` checks become pattern matches.
* Object identity is modelled by a numeric id (`cid`/`rid`); Python's default
  `==` on these objects is identity comparison.
* A Python attribute that may be unset (because a silent-fail setter never
  assigned it) is an `Option`; reading an unset attribute raises
  `AttributeError`, modelled by `Except PyErr`.
* The three class-level `all` lists live in a `State` record; constructors
  are state transformers.
* Python numbers in `average_star_rating` are modelled as exact rationals;
  `round(x, 1)` is rounding to one decimal with ties to even, Python's
  rounding mode.
* `sorted(..., reverse=True)` is Python's stable sort, modelled by
  `List.insertionSort` with the relation "average of the left is at least the
  average of the right" (insertion sort is stable for that relation).
-/

/-- A Python value as seen by the constructors and setters of this module. -/
inductive PyVal where
  | int (n : ℤ)
  | str (s : String)
  | none
  | cust (id : ℕ)
  | rest (id : ℕ)
deriving DecidableEq

/-- The only exception this module can raise: reading a missing attribute, or
assigning to a property that has no setter. -/
inductive PyErr where
  | attributeError
deriving DecidableEq

/-- A `Customer` object: its identity and its `_first_name` / `_last_name`
attributes, each possibly unset. -/
structure CustomerObj where
  cid : ℕ
  first_name : Option String
  last_name : Option String
deriving DecidableEq

/-- A `Restaurant` object: its identity and its `_name` attribute, possibly
unset. -/
structure RestaurantObj where
  rid : ℕ
  name : Option String
deriving DecidableEq

/-- A fully-formed entry of the `Review.all` registry: one customer
reference, one restaurant reference, one rating. -/
structure ReviewRec where
  customer : ℕ
  restaurant : ℕ
  rating : ℤ
deriving DecidableEq

/-- The three class-level `all` registries. -/
structure State where
  customers : List CustomerObj
  restaurants : List RestaurantObj
  reviews : List ReviewRec
deriving DecidableEq

/-- The name-validation test shared by the `first_name`, `last_name` and
`name` setters: `isinstance(value, str) and 1 <= len(value) <= 25`. -/
def valid_name (v : PyVal) : Prop :=
  match v with
  | .str s => 1 ≤ s.length ∧ s.length ≤ 25
  | _ => False

instance : DecidablePred valid_name := fun v =>
  match v with
  | .int _ => isFalse (fun h => h)
  | .str s => inferInstanceAs (Decidable (1 ≤ s.length ∧ s.length ≤ 25))
  | .none => isFalse (fun h => h)
  | .cust _ => isFalse (fun h => h)
  | .rest _ => isFalse (fun h => h)

/-- `Customer.first_name` setter (lines 25-34): assigns only when the value is
a `str` of length 1..25, otherwise silently leaves the attribute untouched. -/
def customer_set_first_name (c : CustomerObj) (value : PyVal) : CustomerObj :=
  match value with
  | .str s =>
      if 1 ≤ s.length ∧ s.length ≤ 25 then { c with first_name := some s } else c
  | _ => c

/-- `Customer.last_name` setter (lines 41-49). -/
def customer_set_last_name (c : CustomerObj) (value : PyVal) : CustomerObj :=
  match value with
  | .str s =>
      if 1 ≤ s.length ∧ s.length ≤ 25 then { c with last_name := some s } else c
  | _ => c

/-- `Customer.first_name` getter (lines 20-23): `return self._first_name`,
which raises `AttributeError` when the attribute was never assigned. -/
def customer_get_first_name (c : CustomerObj) : Except PyErr String :=
  match c.first_name with
  | some v => .ok v
  | Option.none => .error .attributeError

/-- `Customer.__init__` (lines 8-18): run both name setters, then append the
object to `Customer.all`.  It never raises: invalid input is swallowed by the
setters. -/
def customer_init (s : State) (cid : ℕ) (first last : PyVal) :
    Except PyErr (State × CustomerObj) :=
  let c : CustomerObj := ⟨cid, Option.none, Option.none⟩
  let c := customer_set_first_name c first
  let c := customer_set_last_name c last
  .ok ({ s with customers := s.customers ++ [c] }, c)

/-- `Restaurant.name` setter (lines 105-114). -/
def restaurant_set_name (r : RestaurantObj) (value : PyVal) : RestaurantObj :=
  match value with
  | .str s =>
      if 1 ≤ s.length ∧ s.length ≤ 25 then { r with name := some s } else r
  | _ => r

/-- `Restaurant.name` getter (lines 100-103). -/
def restaurant_get_name (r : RestaurantObj) : Except PyErr String :=
  match r.name with
  | some v => .ok v
  | Option.none => .error .attributeError

/-- `Restaurant.__init__` (lines 90-98): run the name setter, then append to
`Restaurant.all`.  Never raises. -/
def restaurant_init (s : State) (rid : ℕ) (value : PyVal) :
    Except PyErr (State × RestaurantObj) :=
  let r : RestaurantObj := ⟨rid, Option.none⟩
  let r := restaurant_set_name r value
  .ok ({ s with restaurants := s.restaurants ++ [r] }, r)

/-- A `Review` object while `__init__` is running: its `_customer` and
`_rating` attributes, each possibly unset.  There is no `_restaurant` field
because class `Review` defines no setter for its `restaurant` property, so
that attribute can never be assigned. -/
structure ReviewObj where
  customer : Option ℕ
  rating : Option ℤ
deriving DecidableEq

/-- `Review.customer` setter (lines 200-209): assigns only when the value is a
`Customer` instance. -/
def review_set_customer (rv : ReviewObj) (val : PyVal) : ReviewObj :=
  match val with
  | .cust i => { rv with customer := some i }
  | _ => rv

/-- `Review.rating` setter (lines 182-194):
`if isinstance(val, int) and 1 <= val <= 5 and not hasattr(self, '_rating')`.
The `hasattr` guard makes the rating write-once. -/
def review_set_rating (rv : ReviewObj) (val : PyVal) : ReviewObj :=
  match val with
  | .int n =>
      if 1 ≤ n ∧ n ≤ 5 ∧ rv.rating = Option.none then { rv with rating := some n } else rv
  | _ => rv

/-- `Review.__init__` (lines 163-175): executes `self.customer = customer`
(the setter at lines 200-209), then `self.restaurant = restaurant`.  Class
`Review` defines a `restaurant` property getter (lines 211-214) but no
setter, so that assignment raises `AttributeError` for every input — before
the rating is assigned and before the object is appended to `Review.all`. -/
def review_init (s : State) (customer restaurant rating : PyVal) :
    Except PyErr (State × ReviewObj) :=
  let rv : ReviewObj := ⟨Option.none, Option.none⟩
  let _rv := review_set_customer rv customer
  let _ := restaurant
  let _ := rating
  .error .attributeError

/-- `Customer.reviews` (lines 52-56): the reviews of `Review.all` whose
customer is this object, in registry order. -/
def customer_reviews (s : State) (c : CustomerObj) : List ReviewRec :=
  s.reviews.filter (fun review => review.customer = c.cid)

/-- `Customer.restaurants` (lines 58-62): `list(set(...))` over the
restaurants of this customer's reviews; the distinct elements, modelled by
first-occurrence deduplication (Python's set iteration order is
unspecified). -/
def customer_restaurants (s : State) (c : CustomerObj) : List ℕ :=
  ((customer_reviews s c).map (fun review => review.restaurant)).dedup

/-- `Customer.num_negative_reviews` (lines 64-68): the number of this
customer's reviews with rating at most 2. -/
def num_negative_reviews (s : State) (c : CustomerObj) : ℕ :=
  ((customer_reviews s c).filter (fun review => review.rating ≤ 2)).length

/-- `Restaurant.reviews` (lines 116-120). -/
def restaurant_reviews (s : State) (r : RestaurantObj) : List ReviewRec :=
  s.reviews.filter (fun review => review.restaurant = r.rid)

/-- `Restaurant.customers` (lines 122-126): `list(set(...))` over the
customers of this restaurant's reviews. -/
def restaurant_customers (s : State) (r : RestaurantObj) : List ℕ :=
  ((restaurant_reviews s r).map (fun review => review.customer)).dedup

/-- Rounding to the nearest integer with ties to even: the rounding mode of
Python's builtin `round`. -/
def roundHalfEven (q : ℚ) : ℤ :=
  if q - ⌊q⌋ < 1 / 2 then ⌊q⌋
  else if 1 / 2 < q - ⌊q⌋ then ⌊q⌋ + 1
  else if ⌊q⌋ % 2 = 0 then ⌊q⌋ else ⌊q⌋ + 1

/-- Python's `round(x, 1)`: round to one decimal place, ties to even. -/
def round1 (q : ℚ) : ℚ := (roundHalfEven (10 * q) : ℚ) / 10

/-- `Restaurant.average_star_rating` (lines 128-138): the mean of the ratings
of this restaurant's reviews rounded to one decimal place, or `0.0` when
there are none. -/
def average_star_rating (s : State) (r : RestaurantObj) : ℚ :=
  let ratings := (restaurant_reviews s r).map (fun review => review.rating)
  if ratings = [] then 0
  else round1 ((ratings.sum : ℚ) / (ratings.length : ℚ))

/-- `sorted(cls.all, key=..., reverse=True)` in `top_two_restaurants`:
Python's sort is stable, and with `reverse=True` it orders by descending key
while ties keep their original relative order.  `List.insertionSort` with
this relation is exactly that stable descending sort. -/
def sorted_restaurants_desc (s : State) : List RestaurantObj :=
  List.insertionSort
    (fun a b => average_star_rating s b ≤ average_star_rating s a) s.restaurants

/-- `Restaurant.top_two_restaurants` (lines 140-153): the first two elements
of the registry sorted by descending average star rating. -/
def top_two_restaurants (s : State) : List RestaurantObj :=
  (sorted_restaurants_desc s).take 2

/-! Helper lemmas shared by several claims. -/

theorem customer_set_first_name_of_invalid (c : CustomerObj) (v : PyVal)
    (h : ¬ valid_name v) : customer_set_first_name c v = c := by
  cases v <;> simp [customer_set_first_name]
  intro h1 h2
  exact absurd ⟨h1, h2⟩ h

theorem restaurant_set_name_of_invalid (r : RestaurantObj) (v : PyVal)
    (h : ¬ valid_name v) : restaurant_set_name r v = r := by
  cases v <;> simp [restaurant_set_name]
  intro h1 h2
  exact absurd ⟨h1, h2⟩ h

theorem customer_set_last_name_first (c : CustomerObj) (v : PyVal) :
    (customer_set_last_name c v).first_name = c.first_name := by
  cases v <;> simp [customer_set_last_name]
  split <;> rfl

/-- Claim C1 (code bug): `Review.__init__` raises `AttributeError` on every
input — in particular on a valid `Customer`, a valid `Restaurant` and an
integer rating in 1..5 — because the `restaurant` property has no setter, so
`self.restaurant = restaurant` fails; no `Review` is ever constructed or
registered, contradicting the docstrings and the spec. -/
theorem review_init_always_raises (s : State) (customer restaurant rating : PyVal) :
    review_init s customer restaurant rating = .error .attributeError := rfl

/-- Claim C4: once the rating has been assigned, any later call of the rating
setter — whatever the value, valid or not — leaves the stored rating
unchanged, because of the `hasattr(self, '_rating')` guard. -/
theorem rating_immutable (rv : ReviewObj) (x : ℤ) (v : PyVal)
    (h : rv.rating = some x) : (review_set_rating rv v).rating = some x := by
  cases v <;> simp [review_set_rating, h]

/-- Witness for C4: a review whose rating was set to 3 keeps rating 3 after an
attempted reassignment to 5. -/
theorem rating_immutable_witness :
    (review_set_rating ⟨some 0, some 3⟩ (.int 5)).rating = some 3 :=
  rating_immutable ⟨some 0, some 3⟩ 3 (.int 5) rfl

/-- Claim C5: for strings of length 1..25, `Customer` and `Restaurant`
construction succeeds, registers the instance, and stores exactly the input
strings in the name attributes. -/
theorem valid_names_stored (s : State) (cid rid : ℕ) (f l nm : String)
    (hf : 1 ≤ f.length ∧ f.length ≤ 25) (hl : 1 ≤ l.length ∧ l.length ≤ 25)
    (hn : 1 ≤ nm.length ∧ nm.length ≤ 25) :
    customer_init s cid (.str f) (.str l) =
      .ok ({ s with customers := s.customers ++ [⟨cid, some f, some l⟩] },
           ⟨cid, some f, some l⟩) ∧
    restaurant_init s rid (.str nm) =
      .ok ({ s with restaurants := s.restaurants ++ [⟨rid, some nm⟩] },
           ⟨rid, some nm⟩) := by
  constructor
  · simp [customer_init, customer_set_first_name, customer_set_last_name,
      hf.1, hf.2, hl.1, hl.2]
  · simp [restaurant_init, restaurant_set_name, hn.1, hn.2]

/-- Witness for C5 at concrete names on the empty state. -/
theorem valid_names_stored_witness :
    customer_init ⟨[], [], []⟩ 0 (.str "Ada") (.str "Lovelace") =
      .ok (⟨[⟨0, some "Ada", some "Lovelace"⟩], [], []⟩,
           ⟨0, some "Ada", some "Lovelace"⟩) ∧
    restaurant_init ⟨[], [], []⟩ 0 (.str "Chez Ada") =
      .ok (⟨[], [⟨0, some "Chez Ada"⟩], []⟩, ⟨0, some "Chez Ada"⟩) :=
  valid_names_stored ⟨[], [], []⟩ 0 0 "Ada" "Lovelace" "Chez Ada"
    (by decide) (by decide) (by decide)

/-- Counterexample to C6: constructing a `Customer` with the empty-string
first name (length 0, outside 1..25) is not rejected — `__init__` returns
normally and registers the instance; only the attribute assignment is
silently skipped. -/
theorem name_rejection_counterexample :
    customer_init ⟨[], [], []⟩ 0 (.str "") (.str "Smith") =
      .ok (⟨[⟨0, Option.none, some "Smith"⟩], [], []⟩,
           ⟨0, Option.none, some "Smith"⟩) := rfl

/-- Claim C6 as amended: for a name that is not a string or has length
outside 1..25, `Customer` and `Restaurant` construction is NOT rejected: it
completes normally and registers the instance, with the corresponding name
attribute left unset. -/
theorem invalid_names_not_rejected (s : State) (cid rid : ℕ) (v w : PyVal)
    (hv : ¬ valid_name v) :
    customer_init s cid v w =
      .ok ({ s with customers :=
               s.customers ++ [customer_set_last_name ⟨cid, Option.none, Option.none⟩ w] },
           customer_set_last_name ⟨cid, Option.none, Option.none⟩ w) ∧
    (customer_set_last_name ⟨cid, Option.none, Option.none⟩ w).first_name = Option.none ∧
    restaurant_init s rid v =
      .ok ({ s with restaurants := s.restaurants ++ [⟨rid, Option.none⟩] },
           ⟨rid, Option.none⟩) := by
  refine ⟨?_, ?_, ?_⟩
  · simp [customer_init, customer_set_first_name_of_invalid _ _ hv]
  · exact customer_set_last_name_first _ _
  · simp [restaurant_init, restaurant_set_name_of_invalid _ _ hv]

/-- Witness for the amended C6: a non-string name (the integer 7) on the
empty state. -/
theorem invalid_names_not_rejected_witness :
    customer_init ⟨[], [], []⟩ 0 (.int 7) (.str "Smith") =
      .ok (⟨[customer_set_last_name ⟨0, Option.none, Option.none⟩ (.str "Smith")], [], []⟩,
           customer_set_last_name ⟨0, Option.none, Option.none⟩ (.str "Smith")) ∧
    (customer_set_last_name ⟨0, Option.none, Option.none⟩ (.str "Smith")).first_name =
      Option.none ∧
    restaurant_init ⟨[], [], []⟩ 0 (.int 7) =
      .ok (⟨[], [⟨0, Option.none⟩], []⟩, ⟨0, Option.none⟩) :=
  invalid_names_not_rejected ⟨[], [], []⟩ 0 0 (.int 7) (.str "Smith") (by decide)

/-- Claim C7: `num_negative_reviews` counts exactly the reviews of this
customer whose rating is at most 2; on a customer with ratings 1, 2, 3, 5 it
returns 2. -/
theorem num_negative_reviews_spec :
    (∀ (s : State) (c : CustomerObj),
      num_negative_reviews s c =
        (s.reviews.filter (fun review => review.customer = c.cid)).countP
          (fun review => review.rating ≤ 2)) ∧
    num_negative_reviews
      ⟨[⟨7, some "A", some "B"⟩], [],
       [⟨7, 0, 1⟩, ⟨7, 0, 2⟩, ⟨7, 0, 3⟩, ⟨7, 0, 5⟩]⟩
      ⟨7, some "A", some "B"⟩ = 2 := by
  constructor
  · intro s c
    simp [num_negative_reviews, customer_reviews, List.countP_eq_length_filter]
  · decide

/-- Claim C8: `Customer.reviews` and `Restaurant.reviews` return exactly the
registry entries referencing that customer (resp. restaurant), and as a
sublist of `Review.all` they keep registry insertion order. -/
theorem reviews_are_registry_filter :
    ∀ (s : State) (c : CustomerObj) (r : RestaurantObj),
      List.Sublist (customer_reviews s c) s.reviews ∧
      (∀ v, v ∈ customer_reviews s c ↔ v ∈ s.reviews ∧ v.customer = c.cid) ∧
      List.Sublist (restaurant_reviews s r) s.reviews ∧
      (∀ v, v ∈ restaurant_reviews s r ↔ v ∈ s.reviews ∧ v.restaurant = r.rid) := by
  intro s c r
  refine ⟨List.filter_sublist _, ?_, List.filter_sublist _, ?_⟩ <;>
    intro v <;> simp [customer_reviews, restaurant_reviews]

/-- Claim C9: `Customer.restaurants` and `Restaurant.customers` contain each
related counterpart exactly once (no duplicates, and membership holds exactly
for counterparts of some review); two reviews of the same pair collapse to a
single entry, as in the concrete instance. -/
theorem distinct_restaurants_and_customers :
    (∀ (s : State) (c : CustomerObj) (r : RestaurantObj),
      (customer_restaurants s c).Nodup ∧
      (∀ x, x ∈ customer_restaurants s c ↔
        ∃ v ∈ s.reviews, v.customer = c.cid ∧ v.restaurant = x) ∧
      (restaurant_customers s r).Nodup ∧
      (∀ x, x ∈ restaurant_customers s r ↔
        ∃ v ∈ s.reviews, v.restaurant = r.rid ∧ v.customer = x)) ∧
    customer_restaurants ⟨[], [], [⟨0, 5, 4⟩, ⟨0, 5, 2⟩]⟩
      ⟨0, Option.none, Option.none⟩ = [5] := by
  constructor
  · intro s c r
    refine ⟨List.nodup_dedup _, ?_, List.nodup_dedup _, ?_⟩ <;> intro x <;>
      simp [customer_restaurants, restaurant_customers, customer_reviews,
        restaurant_reviews, and_assoc]
  · decide

/-- Claim C2: `average_star_rating` is the arithmetic mean of the ratings of
the reviews referencing the restaurant, rounded to one decimal place, and is
exactly 0.0 when there are none; on ratings 3, 4, 5 it is 4.0. -/
theorem average_star_rating_spec :
    (∀ (s : State) (r : RestaurantObj),
      average_star_rating s r =
        if s.reviews.filter (fun review => review.restaurant = r.rid) = [] then 0
        else round1
          ((((s.reviews.filter (fun review => review.restaurant = r.rid)).map
              (fun review => review.rating)).sum : ℚ) /
            ((s.reviews.filter (fun review => review.restaurant = r.rid)).length : ℚ))) ∧
    average_star_rating ⟨[], [⟨0, some "R"⟩], [⟨9, 0, 3⟩, ⟨9, 0, 4⟩, ⟨9, 0, 5⟩]⟩
      ⟨0, some "R"⟩ = 4 := by
  constructor
  · intro s r
    by_cases h : s.reviews.filter (fun review => review.restaurant = r.rid) = [] <;>
      simp [average_star_rating, restaurant_reviews, h]
  · norm_num [average_star_rating, restaurant_reviews, round1, roundHalfEven]
    decide

/-- Claim C3: `top_two_restaurants` takes the first two of the registry
sorted in descending order of `average_star_rating`; the sort is a
permutation of the registry, is sorted descending, is stable (a pair in
registry order with equal averages stays in that order), and the result has
two elements or fewer when fewer restaurants exist; on A with average 4.5,
B with 3.0 and C with 5.0 it returns C then A. -/
theorem top_two_restaurants_spec :
    (∀ s : State,
      top_two_restaurants s = (sorted_restaurants_desc s).take 2 ∧
      List.Perm (sorted_restaurants_desc s) s.restaurants ∧
      (sorted_restaurants_desc s).Sorted
        (fun a b => average_star_rating s b ≤ average_star_rating s a) ∧
      (∀ a b : RestaurantObj, average_star_rating s a = average_star_rating s b →
        List.Sublist [a, b] s.restaurants →
        List.Sublist [a, b] (sorted_restaurants_desc s)) ∧
      (top_two_restaurants s).length = min 2 s.restaurants.length) ∧
    top_two_restaurants
      ⟨[], [⟨0, some "A"⟩, ⟨1, some "B"⟩, ⟨2, some "C"⟩],
       [⟨0, 0, 4⟩, ⟨0, 0, 5⟩, ⟨0, 1, 3⟩, ⟨0, 2, 5⟩]⟩ =
      [⟨2, some "C"⟩, ⟨0, some "A"⟩] := by
  constructor
  · intro s
    refine ⟨rfl, List.perm_insertionSort _ _, ?_, ?_, ?_⟩
    · haveI : IsTotal RestaurantObj
          (fun a b => average_star_rating s b ≤ average_star_rating s a) :=
        ⟨fun a b => le_total _ _⟩
      haveI : IsTrans RestaurantObj
          (fun a b => average_star_rating s b ≤ average_star_rating s a) :=
        ⟨fun _ _ _ h1 h2 => le_trans h2 h1⟩
      exact List.sorted_insertionSort _ _
    · intro a b hab hsub
      exact List.pair_sublist_insertionSort (le_of_eq hab.symm) hsub
    · simp [top_two_restaurants, sorted_restaurants_desc, List.length_take,
        List.length_insertionSort]
  · norm_num [top_two_restaurants, sorted_restaurants_desc,
      average_star_rating, restaurant_reviews, round1, roundHalfEven,
      List.insertionSort, List.orderedInsert]

/-- Witness for C3: the stability clause at two concrete restaurants with
equal (zero) averages in registry order. -/
theorem top_two_restaurants_spec_witness :
    List.Sublist [⟨0, Option.none⟩, ⟨1, Option.none⟩]
      (sorted_restaurants_desc ⟨[], [⟨0, Option.none⟩, ⟨1, Option.none⟩], []⟩) :=
  ((top_two_restaurants_spec.1
      ⟨[], [⟨0, Option.none⟩, ⟨1, Option.none⟩], []⟩).2.2.2.1)
    ⟨0, Option.none⟩ ⟨1, Option.none⟩ rfl (List.Sublist.refl _)

/-- Claim C10: with an invalid name (non-string, or length outside 1..25)
the constructors do not raise, still append the new instance to the
registry, and never assign the name attribute — so the registry holds an
instance whose name getter raises `AttributeError`. -/
theorem invalid_name_partial_object (s : State) (cid rid : ℕ) (v w : PyVal)
    (hv : ¬ valid_name v) :
    (∃ s1 c, customer_init s cid v w = .ok (s1, c) ∧
      s1.customers = s.customers ++ [c] ∧
      c.first_name = Option.none ∧
      customer_get_first_name c = .error .attributeError) ∧
    (∃ s2 r, restaurant_init s rid v = .ok (s2, r) ∧
      s2.restaurants = s.restaurants ++ [r] ∧
      r.name = Option.none ∧
      restaurant_get_name r = .error .attributeError) := by
  have h1 : customer_init s cid v w =
      .ok ({ s with customers :=
               s.customers ++ [customer_set_last_name ⟨cid, Option.none, Option.none⟩ w] },
           customer_set_last_name ⟨cid, Option.none, Option.none⟩ w) := by
    simp [customer_init, customer_set_first_name_of_invalid _ _ hv]
  have h2 : (customer_set_last_name ⟨cid, Option.none, Option.none⟩ w).first_name =
      Option.none := customer_set_last_name_first _ _
  have h3 : restaurant_init s rid v =
      .ok ({ s with restaurants := s.restaurants ++ [⟨rid, Option.none⟩] },
           ⟨rid, Option.none⟩) := by
    simp [restaurant_init, restaurant_set_name_of_invalid _ _ hv]
  refine ⟨⟨_, _, h1, rfl, h2, ?_⟩, ⟨_, _, h3, rfl, rfl, rfl⟩⟩
  simp [customer_get_first_name, h2]

/-- Witness for C10: a non-string name (the integer 7) on the empty state. -/
theorem invalid_name_partial_object_witness :
    (∃ s1 c, customer_init ⟨[], [], []⟩ 0 (.int 7) (.str "Ok") = .ok (s1, c) ∧
      s1.customers = ([] : List CustomerObj) ++ [c] ∧
      c.first_name = Option.none ∧
      customer_get_first_name c = .error .attributeError) ∧
    (∃ s2 r, restaurant_init ⟨[], [], []⟩ 0 (.int 7) = .ok (s2, r) ∧
      s2.restaurants = ([] : List RestaurantObj) ++ [r] ∧
      r.name = Option.none ∧
      restaurant_get_name r = .error .attributeError) :=
  invalid_name_partial_object ⟨[], [], []⟩ 0 0 (.int 7) (.str "Ok") (by decide)
